import Mathlib

/-!
# Shallow embedding of the configuration-manager package

This file embeds the Go package `config` (CfgManager in `cfg_manager.go`,
NewParser in `parser.go`, plus the WatcherInterface wrapper) as executable
Lean definitions and proves properties of the embedding.

Modelling conventions:
* `Snapshot` (the opaque `*entity.AppConf` value) is modelled as `Nat`.
* `Err` (Go `error` values) is modelled as `String`; a `nil` error is `none`
  in an `Option Err`.
* The loader's successive `LoadConfig` results are a deterministic schedule
  `LoaderBehavior.result : Nat → LoadResult`, indexed by how many calls have
  been made so far; the manager state carries that call counter.
* Go channels are modelled by the list of values ever sent on them, plus the
  capacity recorded at construction.
* `atomic.Value` holding the snapshot is `Option Snapshot`; `none` means the
  value was never stored, in which state the Go type assertion in `GetConfig`
  panics — modelled by `GetConfig` returning `none`.
* Side effects are additionally recorded as an `Event` trace so that
  "LoadConfig was called", "the watcher was registered", "a sleep happened",
  "an error was pushed" are observable in theorems.
* The loader, the retry policy and the logger are read-only after
  `NewConfigManager`; they are passed to each operation as explicit
  parameters instead of being copied into the state record, and the logger
  (a pure diagnostic sink) is dropped from the manager model entirely.
-/

namespace Config

/-- Opaque configuration snapshot (`*entity.AppConf`), an opaque comparable value. -/
abbrev Snapshot := Nat

/-- Go `error` values, modelled as their message strings. -/
abbrev Err := String

/-- Result of one `CfgLoader.LoadConfig` call. -/
inductive LoadResult where
  | ok (c : Snapshot)
  | err (e : Err)
  deriving DecidableEq, Repr

/-- Behaviour of a `CfgLoader`: the result of the k-th `LoadConfig` call
(0-indexed over the manager's lifetime) and the path `GetConfigPath` reports. -/
structure LoaderBehavior where
  result : Nat → LoadResult
  path : String

/-- Behaviour of a `WatcherInterface`: results of `Add`, `Remove` and `Close`
(`none` = nil error). -/
structure WatcherBehavior where
  addResult : String → Option Err
  removeResult : String → Option Err
  closeResult : Option Err

/-- `RetryPolicy`: maximum attempt count and fixed inter-attempt delay
(duration in nanoseconds, as Go's `time.Duration`). -/
structure RetryPolicy where
  maxAttempts : Nat
  timeout : Nat
  deriving DecidableEq, Repr

/-- Observable side effects of manager operations. -/
inductive Event where
  /-- a `loader.LoadConfig` call -/
  | load
  /-- a `time.Sleep(retryPolicy.Timeout)` call, with the slept duration -/
  | sleep (d : Nat)
  /-- a send on the error-notification channel `errorChan` -/
  | pushErr (e : Option Err)
  /-- a `config.Store` of a new snapshot -/
  | store (c : Snapshot)
  /-- a `watcher.Add(path)` call -/
  | watcherAdd (path : String)
  /-- a `watcher.Remove(path)` call -/
  | watcherRemove (path : String)
  /-- a `watcher.Close()` call -/
  | watcherClose
  /-- the `go cm.handleFSNotify(ctx)` statement: the background task starts -/
  | startTask
  deriving DecidableEq, Repr

/-- State of a `CfgManager`.  `configChan`/`errorChan` are the lists of values
ever sent on the corresponding channel, with the channel capacities recorded
at construction.  `watcher` is `none` once `cleanupWatcher` has run (Go sets
the interface field to nil).  `onceDone` is the `sync.Once` completion flag.
`bgTask` records whether the background event-loop goroutine was started. -/
structure CfgManager where
  loadCount : Nat
  config : Option Snapshot
  configChan : List Snapshot
  configChanCap : Nat
  errorChan : List (Option Err)
  errorChanCap : Nat
  watcher : Option WatcherBehavior
  onceDone : Bool
  bgTask : Bool

/-- `NewConfigManager`: allocates both channels with capacity 1, stores the
watcher, performs no I/O. -/
def NewConfigManager (wb : WatcherBehavior) : CfgManager :=
  { loadCount := 0
    config := none
    configChan := []
    configChanCap := 1
    errorChan := []
    errorChanCap := 1
    watcher := some wb
    onceDone := false
    bgTask := false }

/-- `GetConfig`: reads the atomic value under the shared lock.  `none` models
the panic of the type assertion `cm.config.Load().(*entity.AppConf)` when the
atomic value was never stored. -/
def GetConfig (cm : CfgManager) : Option Snapshot :=
  cm.config

/-- `loadAndWatchConfig`: synchronous initial load, publish, watcher
registration, background-task start.  Returns the new state, the returned
error (`none` = nil) and the event trace.  A nil watcher interface at the
`cm.watcher.Add` call would panic in Go; it is modelled as a distinguished
error (the branch is unreachable from `NewConfigManager` + `Init`). -/
def loadAndWatchConfig (lb : LoaderBehavior) (cm : CfgManager) :
    CfgManager × Option Err × List Event :=
  match lb.result cm.loadCount with
  | .err e =>
      ({ cm with loadCount := cm.loadCount + 1 }, some e, [Event.load])
  | .ok c =>
      match cm.watcher with
      | none =>
          ({ cm with loadCount := cm.loadCount + 1, config := some c },
           some "panic: nil watcher", [Event.load, Event.store c])
      | some wb =>
          match wb.addResult lb.path with
          | some e =>
              ({ cm with loadCount := cm.loadCount + 1, config := some c },
               some e, [Event.load, Event.store c, Event.watcherAdd lb.path])
          | none =>
              ({ cm with loadCount := cm.loadCount + 1, config := some c,
                         bgTask := true },
               none,
               [Event.load, Event.store c, Event.watcherAdd lb.path,
                Event.startTask])

/-- `Init`: guarded by `sync.Once`.  The local variable `initErr` is only
assigned inside `once.Do`'s closure, so a call that finds the once already
completed returns the zero value nil — the first call's error is not cached. -/
def Init (lb : LoaderBehavior) (cm : CfgManager) :
    CfgManager × Option Err × List Event :=
  if cm.onceDone then
    (cm, none, [])
  else
    ({ (loadAndWatchConfig lb cm).1 with onceDone := true },
     (loadAndWatchConfig lb cm).2.1, (loadAndWatchConfig lb cm).2.2)

/-- The retry loop of `reloadConfig`, with `remaining` attempts left and
`lastE` the last error seen (`none` before the first attempt, matching Go's
zero-value `var err error`).  When attempts run out the last error is sent on
`errorChan`. -/
def reloadAux (lb : LoaderBehavior) (t : Nat) :
    Nat → Option Err → CfgManager → CfgManager × List Event
  | 0, lastE, cm =>
      ({ cm with errorChan := cm.errorChan ++ [lastE] }, [Event.pushErr lastE])
  | r + 1, _, cm =>
      match lb.result cm.loadCount with
      | .ok c =>
          ({ cm with loadCount := cm.loadCount + 1, config := some c },
           [Event.load, Event.store c])
      | .err e =>
          match reloadAux lb t r (some e) { cm with loadCount := cm.loadCount + 1 } with
          | (cm', tr) => (cm', Event.load :: Event.sleep t :: tr)

/-- `reloadConfig`: runs the retry loop under the exclusive lock, for
`retryPolicy.MaxAttempts` attempts with `retryPolicy.Timeout` between them. -/
def reloadConfig (lb : LoaderBehavior) (rp : RetryPolicy) (cm : CfgManager) :
    CfgManager × List Event :=
  reloadAux lb rp.timeout rp.maxAttempts none cm

/-- fsnotify operation bits (fsnotify.Op constants). -/
def fsnotifyCreate : Nat := 1

/-- fsnotify `Write` bit. -/
def fsnotifyWrite : Nat := 2

/-- fsnotify `Remove` bit. -/
def fsnotifyRemove : Nat := 4

/-- fsnotify `Rename` bit. -/
def fsnotifyRename : Nat := 8

/-- fsnotify `Chmod` bit. -/
def fsnotifyChmod : Nat := 16

/-- A filesystem change event (`fsnotify.Event`): a path name and an
operation bitmask. -/
structure FsEvent where
  name : String
  op : Nat
  deriving DecidableEq, Repr

/-- `processFSNotifyEvent`: reload exactly when the event's op includes the
write bit (`event.Op & fsnotify.Write == fsnotify.Write`). -/
def processFSNotifyEvent (lb : LoaderBehavior) (rp : RetryPolicy)
    (ev : FsEvent) (cm : CfgManager) : CfgManager × List Event :=
  if ev.op &&& fsnotifyWrite = fsnotifyWrite then
    reloadConfig lb rp cm
  else
    (cm, [])

/-- `cleanupWatcher`: closes the watcher if present and clears the field. -/
def cleanupWatcher (cm : CfgManager) : CfgManager × List Event :=
  match cm.watcher with
  | none => (cm, [])
  | some _ => ({ cm with watcher := none }, [Event.watcherClose])

/-- One input to the `handleFSNotify` select loop. -/
inductive LoopInput where
  /-- `ctx.Done()` fired -/
  | cancelled
  /-- a change event arrived on `watcher.Events()` -/
  | fsEvent (ev : FsEvent)
  /-- `watcher.Events()` was closed -/
  | eventsClosed
  /-- an error arrived on `watcher.Errors()` -/
  | watcherErr (e : Err)
  /-- `watcher.Errors()` was closed -/
  | errorsClosed

/-- One iteration of the `handleFSNotify` loop body.  The `Bool` is true when
the loop returns after this input. -/
def handleFSNotifyStep (lb : LoaderBehavior) (rp : RetryPolicy)
    (inp : LoopInput) (cm : CfgManager) : CfgManager × Bool × List Event :=
  match inp with
  | .cancelled =>
      match cleanupWatcher cm with
      | (cm', tr) => (cm', true, tr)
  | .fsEvent ev =>
      match processFSNotifyEvent lb rp ev cm with
      | (cm', tr) => (cm', false, tr)
  | .eventsClosed => (cm, true, [])
  | .watcherErr _ => (cm, false, [])
  | .errorsClosed => (cm, true, [])

/-- `AddWatcher`: under the exclusive lock, fails if the watcher was torn
down, otherwise delegates to `watcher.Add`.  Returns the error and the trace
of underlying-watcher calls. -/
def AddWatcher (cm : CfgManager) (filePath : String) :
    Option Err × List Event :=
  match cm.watcher with
  | none => (some "watcher not initialized", [])
  | some wb => (wb.addResult filePath, [Event.watcherAdd filePath])

/-- `RemoveWatcher`: under the exclusive lock, fails if the watcher was torn
down, otherwise delegates to `watcher.Remove`. -/
def RemoveWatcher (cm : CfgManager) (filePath : String) :
    Option Err × List Event :=
  match cm.watcher with
  | none => (some "watcher not initialized", [])
  | some wb => (wb.removeResult filePath, [Event.watcherRemove filePath])

/-- A zap logger, opaque; only its nil-ness matters to `NewParser`. -/
abbrev Logger := Unit

/-- The parser returned by `NewParser` (`JSONParser` / `YAMLParser`), each
carrying its logger. -/
inductive CfgParser where
  | jsonParser (logger : Logger)
  | yamlParser (logger : Logger)
  deriving DecidableEq, Repr

/-- Go's `strings.HasPrefix(s, ".")`: does the string begin with a dot?
(`.` is a single-byte rune, so the byte-level check of the Go stdlib and
this character-level check agree.) -/
def startsWithDot (s : String) : Bool :=
  match s.data with
  | '.' :: _ => true
  | _ => false

/-- `NewParser`: requires a non-nil logger, prepends a leading dot to the
extension when absent, then dispatches on the normalized extension. -/
def NewParser (fileExtension : String) (logger : Option Logger) :
    Except Err CfgParser :=
  match logger with
  | none => .error "logger is required"
  | some l =>
      let ext := if startsWithDot fileExtension then fileExtension
                 else "." ++ fileExtension
      if ext = ".json" then .ok (.jsonParser l)
      else if ext = ".yaml" ∨ ext = ".yml" then .ok (.yamlParser l)
      else .error ("unsupported file extension: " ++ ext)

/-- `true` exactly on `Event.load`. -/
def Event.isLoad : Event → Bool
  | .load => true
  | _ => false

/-- `true` exactly on `Event.pushErr _`. -/
def Event.isPushErr : Event → Bool
  | .pushErr _ => true
  | _ => false

/-- `true` exactly on `Event.startTask`. -/
def Event.isStartTask : Event → Bool
  | .startTask => true
  | _ => false

/-- The trace of `n` consecutive failed reload attempts: each attempt is a
`LoadConfig` call followed by a `Timeout` sleep. -/
def failSeq (t : Nat) : Nat → List Event
  | 0 => []
  | r + 1 => Event.load :: Event.sleep t :: failSeq t r

theorem failSeq_countP_load (t : Nat) : ∀ n, (failSeq t n).countP Event.isLoad = n := by
  intro n
  induction n with
  | zero => simp [failSeq]
  | succ r ih => simp [failSeq, List.countP_cons, Event.isLoad, ih]

theorem failSeq_countP_pushErr (t : Nat) :
    ∀ n, (failSeq t n).countP Event.isPushErr = 0 := by
  intro n
  induction n with
  | zero => simp [failSeq]
  | succ r ih => simp [failSeq, List.countP_cons, Event.isPushErr, ih]

theorem failSeq_append_get (t : Nat) (rest : List Event) :
    ∀ n i, i < n →
      (failSeq t n ++ rest)[2 * i]? = some Event.load ∧
      (failSeq t n ++ rest)[2 * i + 1]? = some (Event.sleep t) := by
  intro n
  induction n with
  | zero => intro i hi; omega
  | succ r ih =>
    intro i hi
    cases i with
    | zero => simp [failSeq]
    | succ j =>
      have h2 : 2 * (j + 1) = (2 * j + 1) + 1 := by ring
      rw [h2]
      simp only [failSeq, List.cons_append, List.getElem?_cons_succ]
      exact ih j (by omega)

/-- Full characterization of the retry loop when every `LoadConfig` call
fails: `r` further attempts bump the call counter by `r`, leave every other
state field unchanged except `errorChan`, which receives exactly the error of
the final attempt (or the incoming `lastE` when no attempt remains), and the
trace is `r` load/sleep pairs followed by the single error push. -/
theorem reloadAux_allfail (lb : LoaderBehavior) (es : Nat → Err)
    (h : ∀ k, lb.result k = .err (es k)) (t : Nat) :
    ∀ (r : Nat) (lastE : Option Err) (cm : CfgManager),
      reloadAux lb t r lastE cm =
        ({ cm with
            loadCount := cm.loadCount + r,
            errorChan := cm.errorChan ++
              [if r = 0 then lastE else some (es (cm.loadCount + r - 1))] },
         failSeq t r ++
           [Event.pushErr
             (if r = 0 then lastE else some (es (cm.loadCount + r - 1)))]) := by
  intro r
  induction r with
  | zero =>
    intro lastE cm
    simp [reloadAux, failSeq]
  | succ r ih =>
    intro lastE cm
    have hr := ih (some (es cm.loadCount)) { cm with loadCount := cm.loadCount + 1 }
    simp only [reloadAux, h cm.loadCount, hr, failSeq, List.cons_append]
    have hpush :
        (if r = 0 then some (es cm.loadCount)
         else some (es (cm.loadCount + 1 + r - 1))) =
          some (es (cm.loadCount + (r + 1) - 1)) := by
      cases r with
      | zero => simp
      | succ s =>
        have : cm.loadCount + 1 + (s + 1) - 1 = cm.loadCount + (s + 1 + 1) - 1 := by omega
        simp [this]
    rw [hpush]
    simp [Nat.add_assoc, Nat.add_comm 1 r]

/-- A loader whose every `LoadConfig` call fails with `"boom"`. -/
def lbBoom : LoaderBehavior :=
  { result := fun _ => .err "boom", path := "/etc/app.yaml" }

/-- A loader whose every `LoadConfig` call succeeds with snapshot `7`. -/
def lbOk : LoaderBehavior :=
  { result := fun _ => .ok 7, path := "/etc/app.yaml" }

/-- A watcher whose operations all succeed. -/
def wbOk : WatcherBehavior :=
  { addResult := fun _ => none, removeResult := fun _ => none,
    closeResult := none }

/-- A watcher whose `Add` always fails with `"add failed"`. -/
def wbAddFail : WatcherBehavior :=
  { addResult := fun _ => some "add failed", removeResult := fun _ => none,
    closeResult := none }

/-- A retry policy with 3 attempts and a 5-unit timeout. -/
def rp3 : RetryPolicy := { maxAttempts := 3, timeout := 5 }

/-- C2: with `MaxAttempts = n ≥ 1` and every `LoadConfig` call failing, the
reload sequence performs exactly `n` load attempts, sleeps `Timeout` between
consecutive attempts (the trace is `n` load/sleep pairs), and after the last
attempt pushes exactly one error — the final attempt's error — onto the
error-notification channel. -/
theorem reload_retry_bound (lb : LoaderBehavior) (es : Nat → Err)
    (rp : RetryPolicy) (cm : CfgManager)
    (h : ∀ k, lb.result k = .err (es k)) (hn : 1 ≤ rp.maxAttempts) :
    (reloadConfig lb rp cm).2.countP Event.isLoad = rp.maxAttempts ∧
    (reloadConfig lb rp cm).2.countP Event.isPushErr = 1 ∧
    (reloadConfig lb rp cm).1.errorChan =
      cm.errorChan ++ [some (es (cm.loadCount + rp.maxAttempts - 1))] ∧
    (reloadConfig lb rp cm).2 =
      failSeq rp.timeout rp.maxAttempts ++
        [Event.pushErr (some (es (cm.loadCount + rp.maxAttempts - 1)))] ∧
    (∀ i, i < rp.maxAttempts →
      (reloadConfig lb rp cm).2[2 * i]? = some Event.load ∧
      (reloadConfig lb rp cm).2[2 * i + 1]? =
        some (Event.sleep rp.timeout)) := by
  have key := reloadAux_allfail lb es h rp.timeout rp.maxAttempts none cm
  have hne : rp.maxAttempts ≠ 0 := by omega
  simp only [reloadConfig, key, if_neg hne]
  refine ⟨?_, ?_, ?_, ?_, ?_⟩ <;>
    first
      | trivial
      | simp [List.countP_append, failSeq_countP_load, failSeq_countP_pushErr,
              Event.isLoad, Event.isPushErr]
      | (intro i hi; exact failSeq_append_get rp.timeout _ rp.maxAttempts i hi)

/-- Witness for `reload_retry_bound` at a concrete always-failing loader with
`MaxAttempts = 3`. -/
theorem reload_retry_bound_witness :
    (reloadConfig lbBoom rp3 (NewConfigManager wbOk)).2.countP Event.isLoad = 3 ∧
    (reloadConfig lbBoom rp3 (NewConfigManager wbOk)).2.countP Event.isPushErr = 1 :=
  ⟨(reload_retry_bound lbBoom (fun _ => "boom") rp3 (NewConfigManager wbOk)
      (fun _ => rfl) (by decide)).1,
   (reload_retry_bound lbBoom (fun _ => "boom") rp3 (NewConfigManager wbOk)
      (fun _ => rfl) (by decide)).2.1⟩

/-- C3: if every attempt of a reload sequence fails, the published snapshot
is not replaced or cleared: `GetConfig` after the failed sequence equals
`GetConfig` before it. -/
theorem reload_failure_preserves_snapshot (lb : LoaderBehavior)
    (es : Nat → Err) (rp : RetryPolicy) (cm : CfgManager)
    (h : ∀ k, lb.result k = .err (es k)) :
    GetConfig (reloadConfig lb rp cm).1 = GetConfig cm ∧
    (reloadConfig lb rp cm).1.config = cm.config := by
  have key := reloadAux_allfail lb es h rp.timeout rp.maxAttempts none cm
  simp only [reloadConfig, key, GetConfig]
  constructor <;> trivial

/-- Witness for `reload_failure_preserves_snapshot` at a concrete
always-failing loader. -/
theorem reload_failure_preserves_snapshot_witness :
    GetConfig (reloadConfig lbBoom rp3 (NewConfigManager wbOk)).1 =
      GetConfig (NewConfigManager wbOk) :=
  (reload_failure_preserves_snapshot lbBoom (fun _ => "boom") rp3
    (NewConfigManager wbOk) (fun _ => rfl)).1

/-- C4: if the synchronous initial load performed by the first `Init` call
fails, `Init` returns that error, never calls `watcher.Add`, starts no
background task, and leaves the snapshot untouched. -/
theorem init_load_failure (lb : LoaderBehavior) (cm : CfgManager) (e : Err)
    (h0 : cm.onceDone = false) (h : lb.result cm.loadCount = .err e) :
    (Init lb cm).2.1 = some e ∧
    (Init lb cm).2.2 = [Event.load] ∧
    (∀ p, Event.watcherAdd p ∉ (Init lb cm).2.2) ∧
    Event.startTask ∉ (Init lb cm).2.2 ∧
    (Init lb cm).1.bgTask = cm.bgTask ∧
    (Init lb cm).1.config = cm.config := by
  simp [Init, h0, loadAndWatchConfig, h]

/-- Witness for `init_load_failure`: a fresh manager with an always-failing
loader. -/
theorem init_load_failure_witness :
    (Init lbBoom (NewConfigManager wbOk)).2.1 = some "boom" :=
  (init_load_failure lbBoom (NewConfigManager wbOk) "boom" rfl rfl).1

/-- C5: if the initial load succeeds but registering the loader-reported path
with the watcher fails, `Init` returns the registration error and starts no
background task, while the loaded snapshot has already been published:
`GetConfig` afterwards returns it. -/
theorem init_watch_failure (lb : LoaderBehavior) (cm : CfgManager)
    (wb : WatcherBehavior) (c : Snapshot) (e : Err)
    (h0 : cm.onceDone = false) (h1 : lb.result cm.loadCount = .ok c)
    (h2 : cm.watcher = some wb) (h3 : wb.addResult lb.path = some e) :
    (Init lb cm).2.1 = some e ∧
    Event.startTask ∉ (Init lb cm).2.2 ∧
    (Init lb cm).1.bgTask = cm.bgTask ∧
    GetConfig (Init lb cm).1 = some c := by
  simp [Init, h0, loadAndWatchConfig, h1, h2, h3, GetConfig]

/-- Witness for `init_watch_failure`: a fresh manager whose watcher rejects
`Add`. -/
theorem init_watch_failure_witness :
    (Init lbOk (NewConfigManager wbAddFail)).2.1 = some "add failed" ∧
    GetConfig (Init lbOk (NewConfigManager wbAddFail)).1 = some 7 :=
  ⟨(init_watch_failure lbOk (NewConfigManager wbAddFail) wbAddFail 7
      "add failed" rfl rfl rfl rfl).1,
   (init_watch_failure lbOk (NewConfigManager wbAddFail) wbAddFail 7
      "add failed" rfl rfl rfl rfl).2.2.2⟩

/-- With at least one attempt remaining, the retry loop always performs a
`LoadConfig` call. -/
theorem reloadAux_trace_load (lb : LoaderBehavior) (t r : Nat)
    (lastE : Option Err) (cm : CfgManager) (hr : 1 ≤ r) :
    Event.load ∈ (reloadAux lb t r lastE cm).2 := by
  cases r with
  | zero => omega
  | succ s =>
    cases hres : lb.result cm.loadCount with
    | ok c => simp [reloadAux, hres]
    | err e => simp [reloadAux, hres]

/-- C6: processing a filesystem change event triggers the reload sequence
(and hence a `LoadConfig` call) if and only if the event's op bitmask
includes the write bit; without the write bit the state is untouched and no
call happens, and an op composed solely of the create, remove, rename and
chmod bits never includes the write bit. -/
theorem process_event_write_only (lb : LoaderBehavior) (rp : RetryPolicy)
    (ev : FsEvent) (cm : CfgManager) (hn : 1 ≤ rp.maxAttempts) :
    (Event.load ∈ (processFSNotifyEvent lb rp ev cm).2 ↔
      ev.op &&& fsnotifyWrite = fsnotifyWrite) ∧
    (ev.op &&& fsnotifyWrite = fsnotifyWrite →
      processFSNotifyEvent lb rp ev cm = reloadConfig lb rp cm) ∧
    (ev.op &&& fsnotifyWrite ≠ fsnotifyWrite →
      processFSNotifyEvent lb rp ev cm = (cm, [])) ∧
    (ev.op &&& (fsnotifyCreate ||| fsnotifyRemove ||| fsnotifyRename |||
        fsnotifyChmod) = ev.op →
      processFSNotifyEvent lb rp ev cm = (cm, [])) := by
  refine ⟨⟨?_, ?_⟩, ?_, ?_, ?_⟩
  · intro hmem
    by_contra hw
    rw [processFSNotifyEvent, if_neg hw] at hmem
    simp at hmem
  · intro hw
    rw [processFSNotifyEvent, if_pos hw]
    exact reloadAux_trace_load lb rp.timeout rp.maxAttempts none cm hn
  · intro hw
    rw [processFSNotifyEvent, if_pos hw]
  · intro hw
    rw [processFSNotifyEvent, if_neg hw]
  · intro honly
    have hz : ev.op &&& fsnotifyWrite = 0 := by
      conv_lhs => rw [← honly]
      rw [Nat.and_assoc]
      rw [show (fsnotifyCreate ||| fsnotifyRemove ||| fsnotifyRename |||
        fsnotifyChmod) &&& fsnotifyWrite = 0 by decide]
      simp
    have hne : ¬(ev.op &&& fsnotifyWrite = fsnotifyWrite) := by
      rw [hz]; decide
    rw [processFSNotifyEvent, if_neg hne]

/-- Witness for `process_event_write_only`: a pure-write event does reload, a
chmod-only event does not. -/
theorem process_event_write_only_witness :
    Event.load ∈
      (processFSNotifyEvent lbBoom rp3 ⟨"/etc/app.yaml", 2⟩
        (NewConfigManager wbOk)).2 ∧
    processFSNotifyEvent lbBoom rp3 ⟨"/etc/app.yaml", 16⟩
      (NewConfigManager wbOk) = (NewConfigManager wbOk, []) :=
  ⟨(process_event_write_only lbBoom rp3 ⟨"/etc/app.yaml", 2⟩
      (NewConfigManager wbOk) (by decide)).1.mpr rfl,
   (process_event_write_only lbBoom rp3 ⟨"/etc/app.yaml", 16⟩
      (NewConfigManager wbOk) (by decide)).2.2.2 rfl⟩

/-- C7: after the cancellation branch of the event loop has torn down the
watcher, `AddWatcher` and `RemoveWatcher` return the "watcher not
initialized" error with an empty underlying-watcher call trace (the
embedding is total, so no panic can occur). -/
theorem watch_after_teardown (lb : LoaderBehavior) (rp : RetryPolicy)
    (cm : CfgManager) (p q : String) :
    (handleFSNotifyStep lb rp LoopInput.cancelled cm).1.watcher = none ∧
    AddWatcher (handleFSNotifyStep lb rp LoopInput.cancelled cm).1 p =
      (some "watcher not initialized", []) ∧
    RemoveWatcher (handleFSNotifyStep lb rp LoopInput.cancelled cm).1 q =
      (some "watcher not initialized", []) := by
  cases hw : cm.watcher with
  | none =>
    simp [handleFSNotifyStep, cleanupWatcher, hw, AddWatcher, RemoveWatcher]
  | some wb =>
    simp [handleFSNotifyStep, cleanupWatcher, hw, AddWatcher, RemoveWatcher]

/-- C1 counterexample: with an always-failing loader, the first `Init`
returns the load error, but a second `Init` call returns nil instead of that
error — the `sync.Once` guard does not cache the first outcome. -/
theorem init_second_call_returns_nil :
    (Init lbBoom (NewConfigManager wbOk)).2.1 = some "boom" ∧
    (Init lbBoom (Init lbBoom (NewConfigManager wbOk)).1).2.1 = none ∧
    (Init lbBoom (Init lbBoom (NewConfigManager wbOk)).1).2.1 ≠
      (Init lbBoom (NewConfigManager wbOk)).2.1 := by
  refine ⟨rfl, rfl, by decide⟩

/-- C1 amended: only the first `Init` call executes the load-and-watch
sequence; every later call performs no side effects and returns nil,
regardless of the first attempt's outcome. -/
theorem init_once_amended (lb : LoaderBehavior) (cm : CfgManager) :
    (cm.onceDone = true → Init lb cm = (cm, none, [])) ∧
    (Init lb cm).1.onceDone = true ∧
    (cm.onceDone = false →
      (Init lb cm).2.1 = (loadAndWatchConfig lb cm).2.1 ∧
      (Init lb cm).2.2 = (loadAndWatchConfig lb cm).2.2 ∧
      (Init lb cm).1 =
        { (loadAndWatchConfig lb cm).1 with onceDone := true }) := by
  refine ⟨?_, ?_, ?_⟩
  · intro h; simp [Init, h]
  · by_cases h : cm.onceDone
    · simp [Init, h]
    · simp [Init, h]
  · intro h
    simp [Init, h]

/-- Witness for `init_once_amended`: a second `Init` after a failed first is
a perfect no-op returning nil. -/
theorem init_once_amended_witness :
    Init lbBoom (Init lbBoom (NewConfigManager wbOk)).1 =
      ((Init lbBoom (NewConfigManager wbOk)).1, none, []) :=
  (init_once_amended lbBoom (Init lbBoom (NewConfigManager wbOk)).1).1 rfl

/-- The retry loop never clears the stored snapshot: if a snapshot is
present before, one is present after. -/
theorem reloadAux_config_isSome (lb : LoaderBehavior) (t : Nat) :
    ∀ (r : Nat) (lastE : Option Err) (cm : CfgManager),
      cm.config.isSome = true →
      (reloadAux lb t r lastE cm).1.config.isSome = true := by
  intro r
  induction r with
  | zero => intro lastE cm h; simpa [reloadAux] using h
  | succ s ih =>
    intro lastE cm h
    cases hres : lb.result cm.loadCount with
    | ok c => simp [reloadAux, hres]
    | err e =>
      have step := ih (some e) { cm with loadCount := cm.loadCount + 1 }
        (by simpa using h)
      simpa [reloadAux, hres] using step

/-- C8 counterexample: after a failed first `Init`, a second `Init` call
returns success (nil) while no snapshot was ever stored, so `GetConfig`
still hits the no-snapshot panic state. -/
theorem getconfig_after_nil_init_panics :
    (Init lbBoom (Init lbBoom (NewConfigManager wbOk)).1).2.1 = none ∧
    GetConfig (Init lbBoom (Init lbBoom (NewConfigManager wbOk)).1).1 =
      none :=
  ⟨rfl, rfl⟩

/-- C8 amended: `GetConfig` on a manager with no prior successful load is the
panic state (`none`); once the first `Init` call (the one that executes the
sequence) returns success, `GetConfig` returns a snapshot, and every event-
loop step preserves snapshot presence.  A later `Init` call, however, can
return nil even though initialization failed (see `init_second_call_returns_nil`). -/
theorem snapshot_availability_amended (wb : WatcherBehavior)
    (lb : LoaderBehavior) (rp : RetryPolicy) (inp : LoopInput)
    (cm cm' : CfgManager)
    (h0 : cm.onceDone = false) (hsucc : (Init lb cm).2.1 = none)
    (hs : cm'.config.isSome = true) :
    GetConfig (NewConfigManager wb) = none ∧
    (∃ s, GetConfig (Init lb cm).1 = some s) ∧
    (handleFSNotifyStep lb rp inp cm').1.config.isSome = true := by
  refine ⟨rfl, ?_, ?_⟩
  · cases hres : lb.result cm.loadCount with
    | err e =>
      exfalso
      simp [Init, h0, loadAndWatchConfig, hres] at hsucc
    | ok c =>
      cases hwv : cm.watcher with
      | none =>
        exfalso
        simp [Init, h0, loadAndWatchConfig, hres, hwv] at hsucc
      | some wbv =>
        cases hadd : wbv.addResult lb.path with
        | some e =>
          exfalso
          simp [Init, h0, loadAndWatchConfig, hres, hwv, hadd] at hsucc
        | none =>
          exact ⟨c, by simp [Init, h0, loadAndWatchConfig, hres, hwv, hadd,
            GetConfig]⟩
  · cases inp with
    | cancelled =>
      cases hwv : cm'.watcher with
      | none => simpa [handleFSNotifyStep, cleanupWatcher, hwv] using hs
      | some w => simpa [handleFSNotifyStep, cleanupWatcher, hwv] using hs
    | fsEvent ev =>
      by_cases hw : ev.op &&& fsnotifyWrite = fsnotifyWrite
      · simp only [handleFSNotifyStep, processFSNotifyEvent, reloadConfig,
          if_pos hw]
        exact reloadAux_config_isSome lb rp.timeout rp.maxAttempts none cm' hs
      · simpa [handleFSNotifyStep, processFSNotifyEvent, if_neg hw] using hs
    | eventsClosed => simpa [handleFSNotifyStep] using hs
    | watcherErr e => simpa [handleFSNotifyStep] using hs
    | errorsClosed => simpa [handleFSNotifyStep] using hs

/-- Witness for `snapshot_availability_amended`: a fresh manager whose first
`Init` succeeds has a readable snapshot. -/
theorem snapshot_availability_amended_witness :
    ∃ s, GetConfig (Init lbOk (NewConfigManager wbOk)).1 = some s :=
  (snapshot_availability_amended wbOk lbOk rp3
    (LoopInput.fsEvent ⟨"/etc/app.yaml", 2⟩) (NewConfigManager wbOk)
    (Init lbOk (NewConfigManager wbOk)).1 rfl rfl rfl).2.1

/-- `loadAndWatchConfig` never touches the configuration-delivery channel. -/
theorem loadAndWatchConfig_configChan (lb : LoaderBehavior)
    (cm : CfgManager) :
    (loadAndWatchConfig lb cm).1.configChan = cm.configChan := by
  cases hres : lb.result cm.loadCount with
  | err e => simp [loadAndWatchConfig, hres]
  | ok c =>
    cases hwv : cm.watcher with
    | none => simp [loadAndWatchConfig, hres, hwv]
    | some w =>
      cases hadd : w.addResult lb.path with
      | some e => simp [loadAndWatchConfig, hres, hwv, hadd]
      | none => simp [loadAndWatchConfig, hres, hwv, hadd]

/-- The retry loop never touches the configuration-delivery channel. -/
theorem reloadAux_configChan (lb : LoaderBehavior) (t : Nat) :
    ∀ (r : Nat) (lastE : Option Err) (cm : CfgManager),
      (reloadAux lb t r lastE cm).1.configChan = cm.configChan := by
  intro r
  induction r with
  | zero => intro lastE cm; simp [reloadAux]
  | succ s ih =>
    intro lastE cm
    cases hres : lb.result cm.loadCount with
    | ok c => simp [reloadAux, hres]
    | err e =>
      have step := ih (some e) { cm with loadCount := cm.loadCount + 1 }
      simpa [reloadAux, hres] using step

/-- C9: the configuration-delivery channel is allocated empty with capacity 1
at construction, and no manager operation ever sends on it: initialization,
reload, event processing, every event-loop step and watcher cleanup all leave
its contents unchanged. -/
theorem config_chan_never_sent (wb : WatcherBehavior) (lb : LoaderBehavior)
    (rp : RetryPolicy) (inp : LoopInput) (ev : FsEvent) (cm : CfgManager) :
    (NewConfigManager wb).configChan = [] ∧
    (NewConfigManager wb).configChanCap = 1 ∧
    (Init lb cm).1.configChan = cm.configChan ∧
    (reloadConfig lb rp cm).1.configChan = cm.configChan ∧
    (processFSNotifyEvent lb rp ev cm).1.configChan = cm.configChan ∧
    (handleFSNotifyStep lb rp inp cm).1.configChan = cm.configChan ∧
    (cleanupWatcher cm).1.configChan = cm.configChan := by
  have hreload : (reloadConfig lb rp cm).1.configChan = cm.configChan :=
    reloadAux_configChan lb rp.timeout rp.maxAttempts none cm
  have hclean : (cleanupWatcher cm).1.configChan = cm.configChan := by
    cases hwv : cm.watcher with
    | none => simp [cleanupWatcher, hwv]
    | some w => simp [cleanupWatcher, hwv]
  have hproc :
      (processFSNotifyEvent lb rp ev cm).1.configChan = cm.configChan := by
    by_cases hw : ev.op &&& fsnotifyWrite = fsnotifyWrite
    · simpa [processFSNotifyEvent, if_pos hw] using hreload
    · simp [processFSNotifyEvent, if_neg hw]
  refine ⟨rfl, rfl, ?_, hreload, hproc, ?_, hclean⟩
  · by_cases h : cm.onceDone
    · simp [Init, h]
    · simpa [Init, h] using loadAndWatchConfig_configChan lb cm
  · cases inp with
    | cancelled => simpa [handleFSNotifyStep] using hclean
    | fsEvent ev' =>
      by_cases hw : ev'.op &&& fsnotifyWrite = fsnotifyWrite
      · simpa [handleFSNotifyStep, processFSNotifyEvent, if_pos hw]
          using hreload
      · simp [handleFSNotifyStep, processFSNotifyEvent, if_neg hw]
    | eventsClosed => simp [handleFSNotifyStep]
    | watcherErr e => simp [handleFSNotifyStep]
    | errorsClosed => simp [handleFSNotifyStep]

/-- C10: `NewParser` requires a non-nil logger; with one, it returns the JSON
parser exactly when the dot-normalized extension is `.json`, the YAML parser
exactly when it is `.yaml` or `.yml`, and an unsupported-extension error in
every other case. -/
theorem newParser_dispatch (fileExtension : String) (l : Logger) :
    NewParser fileExtension none = .error "logger is required" ∧
    (let ext := if startsWithDot fileExtension then fileExtension
                else "." ++ fileExtension
     (ext = ".json" →
        NewParser fileExtension (some l) = .ok (.jsonParser l)) ∧
     ((ext = ".yaml" ∨ ext = ".yml") →
        NewParser fileExtension (some l) = .ok (.yamlParser l)) ∧
     (ext ≠ ".json" → ext ≠ ".yaml" → ext ≠ ".yml" →
        NewParser fileExtension (some l) =
          .error ("unsupported file extension: " ++ ext))) := by
  refine ⟨rfl, ?_, ?_, ?_⟩
  · intro h
    simp [NewParser, h]
  · intro h
    rcases h with h | h <;> simp [NewParser, h]
  · intro h1 h2 h3
    simp [NewParser, h1, h2, h3]

/-- Witness for `newParser_dispatch` at concrete extensions. -/
theorem newParser_dispatch_witness :
    NewParser "json" (some ()) = .ok (.jsonParser ()) ∧
    NewParser ".yml" (some ()) = .ok (.yamlParser ()) ∧
    NewParser "toml" none = .error "logger is required" :=
  ⟨(newParser_dispatch "json" ()).2.1 (by decide),
   (newParser_dispatch ".yml" ()).2.2.1 (Or.inr (by decide)),
   (newParser_dispatch "toml" ()).1⟩

end Config
